import Mathlib

/-!  Shallow embedding of the query_histogram shared-memory engine
     (src/src/queryhist.c, src/src/queryhist.h, plus the SQL-facing glue in
     the extension's C file).  The C arrays laid out after segment_info_t are
     modelled as integer-indexed lists (arena model); machine doubles
     (time_bin_t = float8) are modelled exactly by rationals; int64 counters
     by Int.  Locks are concurrency-only and have no sequential content, so
     they are omitted; the per-backend static lookup cache
     (lookup_version / lookup_db_index) is threaded explicitly. -/

attribute [local semireducible] Rat.add Rat.mul Rat.inv Rat.sub

/-- Histogram scaling type (histogram_type_t in queryhist.h). -/
inductive histogram_type_t : Type
  | HISTOGRAM_LINEAR
  | HISTOGRAM_LOG
deriving DecidableEq

export histogram_type_t (HISTOGRAM_LINEAR HISTOGRAM_LOG)

/-- Database identifier (PostgreSQL Oid). -/
abbrev Oid := Nat

/-- InvalidOid is 0 in PostgreSQL. -/
def InvalidOid : Oid := 0

/-- The DB_NOT_FOUND sentinel (-1) from queryhist.c. -/
def DB_NOT_FOUND : Int := -1

/-- One histogram (histogram_info_t): the last-reset timestamp plus the
    parallel count/time bin arrays (count_bins / time_bins, each of length
    HIST_BINS_MAX+1 in C; here lists whose length is preserved by every
    operation).  The embedded LWLock is omitted. -/
structure histogram_info_t where
  last_reset : Int
  count_bins : List Int
  time_bins : List Rat
deriving DecidableEq

/-- Entry of the tracked-database list (db_info_t): the database OID and the
    index of its histogram inside the histograms array. -/
structure db_info_t where
  databaseoid : Oid
  histogram_idx : Int
deriving DecidableEq

/-- The shared segment (segment_info_t): parameters, version counter, the
    database list (length max_databases in C) and the histogram array
    (length max_databases + 1; slot 0 is the global histogram).
    max_databases and current_databases are C ints that are always
    non-negative, modelled as Nat. -/
structure segment_info_t where
  max_databases : Nat
  current_databases : Nat
  version : Int
  type : histogram_type_t
  bins : Int
  step : Int
  sample_pct : Int
  track_utility : Bool
  databases : List db_info_t
  histograms : List histogram_info_t
deriving DecidableEq

/-- Backend-local lookup cache: the static variables lookup_version and
    lookup_db_index in queryhist.c.  Note the cache stores only the version
    and the resolved index, not the OID the lookup was performed for. -/
structure backend_cache_t where
  lookup_version : Int
  lookup_db_index : Int
deriving DecidableEq

/-- Write through an array cell: apply f at position i, leaving the rest of
    the list unchanged (out-of-range indices touch nothing in the model). -/
def listModify (f : α → α) : Nat → List α → List α
  | _, [] => []
  | 0, x :: xs => f x :: xs
  | n + 1, x :: xs => x :: listModify f n xs

/-- Array write at a C int index.  A negative index never occurs in a
    modelled execution (it would be undefined behaviour in the C). -/
def listModifyI (f : α → α) (i : Int) (l : List α) : List α :=
  if 0 ≤ i then listModify f i.toNat l else l

/-- Read databases[i] (in range in every modelled execution). -/
def dbGet (dbs : List db_info_t) (i : Int) : db_info_t :=
  dbs.getD i.toNat ⟨InvalidOid, 0⟩

/-- Read histograms[i] (in range in every modelled execution). -/
def histGet (hs : List histogram_info_t) (i : Int) : histogram_info_t :=
  hs.getD i.toNat ⟨0, [], []⟩

/-- query_bin (queryhist.c:1060-1075).  The C function receives bins/step as
    arguments but actually reads segment_info->type, ->step and ->bins, and
    its callers pass exactly those fields, so the embedding takes the
    segment.  Durations are seconds (a C double), modelled exactly as
    rationals; duration*1000.0 converts to milliseconds.  For an argument
    x >= 1 the C expression (int)floor(log2(x)) is Int.log 2 x. -/
def query_bin (s : segment_info_t) (duration : Rat) : Int :=
  let bin : Int :=
    if s.type = HISTOGRAM_LINEAR then
      ⌊(duration * 1000) / (s.step : Rat)⌋
    else
      Int.log 2 (1 + (duration * 1000) / (s.step : Rat))
  if bin ≥ s.bins then s.bins else bin

/-- Spec-side bucket function, written from the spec's words (BucketMath):
    linear index = floor(duration_ms / bucket_width); logarithmic index =
    floor(log2 (1 + duration_ms / bucket_width)), where Int.log 2 is that
    floor for arguments >= 1; any computed index >= bucket_count maps to
    bucket_count (the overflow bucket). -/
def bucket_of_spec (t : histogram_type_t) (bucket_count bucket_width : Int)
    (duration_ms : Rat) : Int :=
  let idx : Int :=
    match t with
    | HISTOGRAM_LINEAR => ⌊duration_ms / (bucket_width : Rat)⌋
    | HISTOGRAM_LOG => Int.log 2 (1 + duration_ms / (bucket_width : Rat))
  if idx ≥ bucket_count then bucket_count else idx

/-- Look up an OID in a database list, returning the position of the first
    match (the scan loop of find_histogram_index). -/
def findOidIdx (databaseoid : Oid) : List db_info_t → Option Nat
  | [] => none
  | d :: rest =>
      if d.databaseoid = databaseoid then some 0
      else (findOidIdx databaseoid rest).map (· + 1)

/-- find_histogram_index (queryhist.c:1034-1058): when the cached version
    equals the segment version the cached index is returned as-is (the cache
    does not record which OID it was computed for); otherwise the first
    current_databases entries are scanned and the cache is refreshed.
    Returns the index together with the updated backend cache. -/
def find_histogram_index (s : segment_info_t) (c : backend_cache_t)
    (databaseoid : Oid) : Int × backend_cache_t :=
  if c.lookup_version = s.version then (c.lookup_db_index, c)
  else
    let idx : Int :=
      match findOidIdx databaseoid (s.databases.take s.current_databases) with
      | some i => (i : Int)
      | none => DB_NOT_FOUND
    (idx, ⟨s.version, idx⟩)

/-- Record one query in a histogram: count_bins[bin] += 1 and
    time_bins[bin] += duration. -/
def hist_add_query (h : histogram_info_t) (bin : Int) (duration : Rat) :
    histogram_info_t :=
  { h with
    count_bins := listModifyI (· + 1) bin h.count_bins,
    time_bins := listModifyI (· + duration) bin h.time_bins }

/-- memset of both bin arrays of one histogram to zero (the arrays keep
    their length; last_reset is untouched). -/
def hist_zero (h : histogram_info_t) : histogram_info_t :=
  { h with
    count_bins := List.replicate h.count_bins.length 0,
    time_bins := List.replicate h.time_bins.length 0 }

/-- add_query (queryhist.c:948-1017), sequential semantics.  The bin is
    computed, the global histogram (slot 0) is updated, the database is
    looked up (through the backend cache); a missing database is inserted at
    position current_databases with histogram_idx = current_databases + 1
    when there is capacity (bumping current_databases and version), and the
    resolved database's histogram is updated through its stored
    histogram_idx.  The shared-to-exclusive relock in the insertion path
    cannot observe a concurrent change in a sequential model, so the
    re-search guarded by current_dbs != current_databases is dead and
    omitted; everything else is translated directly. -/
def add_query (s : segment_info_t) (c : backend_cache_t) (myDatabaseId : Oid)
    (duration : Rat) : segment_info_t × backend_cache_t :=
  let bin := query_bin s duration
  let s1 := { s with
    histograms := listModify (fun h => hist_add_query h bin duration) 0 s.histograms }
  let fr := find_histogram_index s1 c myDatabaseId
  let db_index := fr.1
  if db_index = DB_NOT_FOUND ∧ s1.current_databases < s1.max_databases then
    let s2 := { s1 with
      databases :=
        listModify
          (fun d => { d with
            databaseoid := myDatabaseId,
            histogram_idx := (s1.current_databases : Int) + 1 })
          s1.current_databases s1.databases,
      current_databases := s1.current_databases + 1,
      version := s1.version + 1 }
    let hidx := (dbGet s2.databases (s1.current_databases : Int)).histogram_idx
    ({ s2 with
       histograms := listModifyI (fun h => hist_add_query h bin duration) hidx s2.histograms },
     fr.2)
  else
    if db_index ≠ DB_NOT_FOUND then
      let hidx := (dbGet s1.databases db_index).histogram_idx
      ({ s1 with
         histograms := listModifyI (fun h => hist_add_query h bin duration) hidx s1.histograms },
       fr.2)
    else (s1, fr.2)

/-- One iteration of the histogram_reset loop body at index i: optionally
    invalidate databases[i].databaseoid, then zero histograms[i] and stamp
    its last_reset. -/
def reset_loop_body (remove : Bool) (now : Int) (i : Nat) (s : segment_info_t) :
    segment_info_t :=
  let s1 :=
    if remove then
      { s with
        databases := listModify (fun d => { d with databaseoid := InvalidOid }) i s.databases }
    else s
  { s1 with
    histograms := listModify (fun h => { hist_zero h with last_reset := now }) i s1.histograms }

/-- histogram_reset (queryhist.c:814-845): loops i = 0 .. current_databases
    inclusive running reset_loop_body, then increments version.
    current_databases itself is left unchanged.  When current_databases
    equals max_databases the C loop's write to databases[current_databases]
    lands one element past the databases array (raw memory corruption,
    outside this model), so theorems assume current_databases <
    max_databases. -/
def histogram_reset (s : segment_info_t) (now : Int) (remove : Bool) :
    segment_info_t :=
  let s1 := (List.range (s.current_databases + 1)).foldl
    (fun acc i => reset_loop_body remove now i acc) s
  { s1 with version := s1.version + 1 }

/-- histogram_reset_global (queryhist.c:848-869): zeroes the global
    histogram's arrays, stamps its last_reset, and increments version. -/
def histogram_reset_global (s : segment_info_t) (now : Int) : segment_info_t :=
  { s with
    histograms := listModify (fun h => { hist_zero h with last_reset := now }) 0 s.histograms,
    version := s.version + 1 }

/-- histogram_reset_db (queryhist.c:873-946), translated exactly including
    the slot arithmetic: the remove path copies the last entry's OID into
    the freed databases slot (histogram_idx is not copied), copies the bin
    arrays of histograms[current_databases-1] into histograms[db_index],
    zeroes histograms[current_databases-1], decrements current_databases and
    increments version; the in-place path zeroes histograms[db_index] and
    stamps its last_reset (version untouched).  Returns (reset, segment,
    cache); a database that is not found returns false with the segment
    unchanged. -/
def histogram_reset_db (s : segment_info_t) (c : backend_cache_t)
    (databaseoid : Oid) (now : Int) (remove : Bool) :
    Bool × segment_info_t × backend_cache_t :=
  let fr := find_histogram_index s c databaseoid
  let db_index := fr.1
  if db_index ≠ DB_NOT_FOUND then
    if remove then
      let lastIdx : Int := (s.current_databases : Int) - 1
      let s1 :=
        if db_index ≠ lastIdx then
          let lastDb := dbGet s.databases lastIdx
          let lastHist := histGet s.histograms lastIdx
          { s with
            databases :=
              listModifyI (fun d => { d with databaseoid := lastDb.databaseoid })
                db_index s.databases,
            histograms :=
              listModifyI
                (fun h => { h with
                  count_bins := lastHist.count_bins,
                  time_bins := lastHist.time_bins })
                db_index s.histograms }
        else s
      let s2 := { s1 with histograms := listModifyI hist_zero lastIdx s1.histograms }
      (true,
       { s2 with
         current_databases := s2.current_databases - 1,
         version := s2.version + 1 },
       fr.2)
    else
      (true,
       { s with
         histograms :=
           listModifyI (fun h => { hist_zero h with last_reset := now })
             db_index s.histograms },
       fr.2)
  else (false, s, fr.2)

/-- Data handed to the SRF functions (histogram_data in queryhist.h); the
    next link used by histogram_get_data_dbs is not needed here. -/
structure histogram_data where
  histogram_type : histogram_type_t
  databaseoid : Oid
  bins_count : Int
  bins_width : Int
  total_count : Int
  count_data : List Int
  total_time : Rat
  time_data : List Rat
deriving DecidableEq

/-- Conversion double -> int64 (truncation toward zero), exact on the
    rational model. -/
def c_trunc (q : Rat) : Int := if 0 ≤ q then ⌊q⌋ else -⌊-q⌋

/-- Count scaling loop of the histogram_get_data functions: when scale is
    set and sample_pct < 100 every count is multiplied by the coefficient
    100.0/sample_pct and stored back into an int64 (truncating). -/
def scale_counts (scale : Bool) (sample_pct : Int) (counts : List Int) : List Int :=
  if scale ∧ sample_pct < 100 then
    counts.map (fun cnt => c_trunc ((cnt : Rat) * (100 / (sample_pct : Rat))))
  else counts

/-- Time scaling loop of the histogram_get_data functions: each time bin is
    multiplied by 100.0/sample_pct under the same condition. -/
def scale_times (scale : Bool) (sample_pct : Int) (times : List Rat) : List Rat :=
  if scale ∧ sample_pct < 100 then
    times.map (fun t => t * (100 / (sample_pct : Rat)))
  else times

/-- histogram_get_data_global (queryhist.c:1153-1207): copies the first
    bins+1 entries of the global histogram (slot 0), optionally scales them,
    and computes the totals over the (possibly scaled) copy; with bins = 0
    no bin data is produced. -/
def histogram_get_data_global (s : segment_info_t) (scale : Bool) :
    histogram_data :=
  let base : histogram_data :=
    { histogram_type := s.type, databaseoid := InvalidOid, bins_count := s.bins,
      bins_width := s.step, total_count := 0, count_data := [],
      total_time := 0, time_data := [] }
  if 0 < s.bins then
    let g := histGet s.histograms 0
    let cnts := scale_counts scale s.sample_pct (g.count_bins.take (s.bins + 1).toNat)
    let tms := scale_times scale s.sample_pct (g.time_bins.take (s.bins + 1).toNat)
    { base with
      count_data := cnts, time_data := tms,
      total_count := cnts.foldl (· + ·) 0,
      total_time := tms.foldl (· + ·) 0 }
  else base

/-- histogram_get_data_db (queryhist.c:1210-1276): resolves the database via
    find_histogram_index (through the backend cache) and, when the lookup
    reports an index, copies histograms[db_index+1] the same way the global
    accessor does; a lookup that reports DB_NOT_FOUND returns none (the C
    returns NULL there while still holding the segment lock, a lock leak
    that has no sequential content).  The segment itself is never
    mutated. -/
def histogram_get_data_db (s : segment_info_t) (c : backend_cache_t)
    (scale : Bool) (databaseoid : Oid) :
    Option histogram_data × backend_cache_t :=
  let fr := find_histogram_index s c databaseoid
  let db_index := fr.1
  if db_index = DB_NOT_FOUND then (none, fr.2)
  else
    let base : histogram_data :=
      { histogram_type := s.type, databaseoid := databaseoid, bins_count := s.bins,
        bins_width := s.step, total_count := 0, count_data := [],
        total_time := 0, time_data := [] }
    if 0 < s.bins then
      let g := histGet s.histograms (db_index + 1)
      let cnts := scale_counts scale s.sample_pct (g.count_bins.take (s.bins + 1).toNat)
      let tms := scale_times scale s.sample_pct (g.time_bins.take (s.bins + 1).toNat)
      (some { base with
              count_data := cnts, time_data := tms,
              total_count := cnts.foldl (· + ·) 0,
              total_time := tms.foldl (· + ·) 0 },
       fr.2)
    else (some base, fr.2)

/-- Number of rows emitted by the query_histogram set-returning function
    (the SQL glue): zero when the data accessor returned NULL, otherwise
    bins_count rows, plus one for the overflow bin when bins_count > 0. -/
def query_histogram_rows (data : Option histogram_data) : Int :=
  match data with
  | none => 0
  | some d => if 0 < d.bins_count then d.bins_count + 1 else d.bins_count

/-- The GUC-backed statics default_histogram_dynamic / _type / _bins /
    _step / _sample_pct and max_database_histograms, which
    histogram_load_from_file consults and may reassign. -/
structure guc_defaults_t where
  dynamic : Bool
  histogram_type : histogram_type_t
  bins : Int
  step : Int
  sample_pct : Int
  max_database_histograms : Nat
deriving DecidableEq

/-- A histogram dump file: the stored digest over the payload followed by
    the payload, which is the raw contents of the shared segment (the
    4-byte length field is the payload's size and is implicit here).  The
    digest function (pg_md5_binary, external to this repository) is kept as
    a parameter of the codec. -/
structure dump_file_t (D : Type) where
  hash : D
  payload : segment_info_t

/-- histogram_shmem_shutdown (queryhist.c:755-812), success path: writes the
    digest of the live segment bytes, the length, and the raw segment. -/
def histogram_shmem_shutdown (md5 : segment_info_t → D) (s : segment_info_t) :
    dump_file_t D :=
  ⟨md5 s, s⟩

/-- Result signal of histogram_load_from_file. -/
inductive load_result : Type
  | loaded
  | rejected_hash
  | rejected_params
deriving DecidableEq

/-- Overwrite the first n entries of live with the corresponding entries of
    src (the element-copy loops of histogram_load_from_file); the length of
    live is preserved. -/
def copy_first : List α → List α → Nat → List α
  | live, _, 0 => live
  | [], _, _ + 1 => []
  | _ :: ls, y :: ss, n + 1 => y :: copy_first ls ss n
  | x :: ls, [], n + 1 => x :: copy_first ls [] n

/-- histogram_load_from_file (queryhist.c:616-751): recompute the digest
    over the payload and compare it with the stored one; on mismatch warn
    and leave the live segment untouched (startup continues).  On match, in
    dynamic mode always accept; in static mode accept only when the file's
    bins, step, sample_pct and type equal the configured defaults and the
    file's database count fits.  Accepting copies the file's first
    current_databases database entries and histograms 0..current_databases
    into the live segment and installs the file's current_databases.  The
    four assignments meant to adopt the file's parameters read segment_info
    (the live segment) instead of segment_info_tmp (the loaded buffer), so
    the live parameters stay as initialized and the default_histogram_*
    statics are merely reassigned from the live segment. -/
def histogram_load_from_file [DecidableEq D] (md5 : segment_info_t → D)
    (g : guc_defaults_t) (live : segment_info_t) (file : dump_file_t D) :
    segment_info_t × guc_defaults_t × load_result :=
  if file.hash = md5 file.payload then
    let tmp := file.payload
    if g.dynamic ∨ (¬g.dynamic ∧ tmp.bins = g.bins ∧ tmp.step = g.step ∧
        tmp.sample_pct = g.sample_pct ∧ tmp.type = g.histogram_type ∧
        tmp.current_databases ≤ g.max_database_histograms) then
      let live1 := { live with
        databases := copy_first live.databases tmp.databases tmp.current_databases,
        histograms := copy_first live.histograms tmp.histograms (tmp.current_databases + 1),
        current_databases := tmp.current_databases }
      let g1 := { g with
        histogram_type := live1.type, bins := live1.bins,
        step := live1.step, sample_pct := live1.sample_pct }
      (live1, g1, load_result.loaded)
    else (live, g, load_result.rejected_params)
  else (live, g, load_result.rejected_hash)

/-- Shape invariants a live segment satisfies by construction (lengths fixed
    at shmem startup; every tracked entry i stores histogram_idx = i + 1, as
    add_query establishes on insertion). -/
def segment_wf (s : segment_info_t) : Prop :=
  s.databases.length = s.max_databases ∧
  s.histograms.length = s.max_databases + 1 ∧
  s.current_databases ≤ s.max_databases ∧
  ∀ i : Nat, i < s.current_databases →
    (dbGet s.databases (i : Int)).histogram_idx = (i : Int) + 1

/-- Initial backend cache (the C statics start as lookup_version = -1,
    lookup_db_index = DB_NOT_FOUND). -/
def cache_init : backend_cache_t := ⟨-1, DB_NOT_FOUND⟩

/-- Concrete linear segment (bins = 10, step = 100 ms) with no tracked
    databases, used for bucket-math examples. -/
def c4_segment : segment_info_t :=
  { max_databases := 0, current_databases := 0, version := 0,
    type := HISTOGRAM_LINEAR, bins := 10, step := 100, sample_pct := 100,
    track_utility := true, databases := [],
    histograms := [⟨0, [], []⟩] }

/-- Concrete segment tracking databases A = 10, B = 20, C = 30 (slots 1, 2, 3)
    with pairwise distinct histogram contents; two bin slots per histogram
    (bins = 1 plus the overflow bin). -/
def seg3 : segment_info_t :=
  { max_databases := 3, current_databases := 3, version := 3,
    type := HISTOGRAM_LINEAR, bins := 1, step := 100, sample_pct := 100,
    track_utility := true,
    databases := [⟨10, 1⟩, ⟨20, 2⟩, ⟨30, 3⟩],
    histograms :=
      [⟨0, [100, 200], [1, 2]⟩,
       ⟨0, [1, 2], [3, 4]⟩,
       ⟨0, [7, 8], [5, 6]⟩,
       ⟨0, [5, 6], [9, 10]⟩] }

/-- The segment obtained by evicting database 20 (B) from seg3. -/
def seg3_evicted : segment_info_t :=
  (histogram_reset_db seg3 cache_init 20 7 true).2.1

/-- Concrete full segment (capacity 1, already tracking database 10). -/
def seg6 : segment_info_t :=
  { max_databases := 1, current_databases := 1, version := 0,
    type := HISTOGRAM_LINEAR, bins := 1, step := 100, sample_pct := 100,
    track_utility := true,
    databases := [⟨10, 1⟩],
    histograms := [⟨0, [0, 0], [0, 0]⟩, ⟨0, [0, 0], [0, 0]⟩] }

/-- GUC defaults for the snapshot-codec examples: dynamic mode, linear,
    bins = 100, step = 100, sample_pct = 100, capacity 3. -/
def g5 : guc_defaults_t :=
  { dynamic := true, histogram_type := HISTOGRAM_LINEAR, bins := 100,
    step := 100, sample_pct := 100, max_database_histograms := 3 }

/-- A saved segment whose parameters differ from every default (logarithmic,
    bins = 1, step = 50, sample_pct = 25) and which tracks database 10. -/
def s5saved : segment_info_t :=
  { max_databases := 3, current_databases := 1, version := 5,
    type := HISTOGRAM_LOG, bins := 1, step := 50, sample_pct := 25,
    track_utility := true,
    databases := [⟨10, 1⟩, ⟨0, 0⟩, ⟨0, 0⟩],
    histograms :=
      [⟨3, [2, 4], [5, 6]⟩,
       ⟨3, [8, 9], [7, 8]⟩,
       ⟨0, [0, 0], [0, 0]⟩,
       ⟨0, [0, 0], [0, 0]⟩] }

/-- A freshly initialized live segment built from the g5 defaults (what
    histogram_shmem_startup produces before histogram_load_from_file
    runs). -/
def f5live : segment_info_t :=
  { max_databases := 3, current_databases := 0, version := 0,
    type := HISTOGRAM_LINEAR, bins := 100, step := 100, sample_pct := 100,
    track_utility := true,
    databases := [⟨0, 0⟩, ⟨0, 0⟩, ⟨0, 0⟩],
    histograms :=
      [⟨0, [0, 0], [0, 0]⟩,
       ⟨0, [0, 0], [0, 0]⟩,
       ⟨0, [0, 0], [0, 0]⟩,
       ⟨0, [0, 0], [0, 0]⟩] }

/-- Result of loading the file written for s5saved into the fresh f5live
    segment under dynamic mode (digest modelled by the identity, which makes
    the recomputed digest match by construction). -/
def c5_loaded : segment_info_t × guc_defaults_t × load_result :=
  histogram_load_from_file (fun x => x) g5 f5live
    (histogram_shmem_shutdown (fun x => x) s5saved)

/-- Concrete segment tracking databases 10 and 20 (capacity 3) with data in
    the global and both per-database histograms. -/
def seg8 : segment_info_t :=
  { max_databases := 3, current_databases := 2, version := 2,
    type := HISTOGRAM_LINEAR, bins := 1, step := 100, sample_pct := 100,
    track_utility := true,
    databases := [⟨10, 1⟩, ⟨20, 2⟩, ⟨0, 0⟩],
    histograms :=
      [⟨0, [100, 200], [1, 2]⟩,
       ⟨0, [1, 2], [3, 4]⟩,
       ⟨0, [7, 8], [5, 6]⟩,
       ⟨0, [0, 0], [0, 0]⟩] }

/-- seg8 after a full reset with eviction requested. -/
def seg8_reset : segment_info_t := histogram_reset seg8 7 true

/-- Concrete sampled segment: sample_pct = 25, count 10 in bucket 0 of the
    global histogram. -/
def seg9 : segment_info_t :=
  { max_databases := 0, current_databases := 0, version := 0,
    type := HISTOGRAM_LINEAR, bins := 1, step := 100, sample_pct := 25,
    track_utility := true, databases := [],
    histograms := [⟨0, [10, 0], [2, 0]⟩] }

/-- Concrete segment tracking only database 10 (capacity 2). -/
def seg10 : segment_info_t :=
  { max_databases := 2, current_databases := 1, version := 0,
    type := HISTOGRAM_LINEAR, bins := 1, step := 100, sample_pct := 100,
    track_utility := true,
    databases := [⟨10, 1⟩, ⟨0, 0⟩],
    histograms :=
      [⟨0, [100, 200], [1, 2]⟩,
       ⟨0, [1, 2], [3, 4]⟩,
       ⟨0, [0, 0], [0, 0]⟩] }

/-- Backend cache after an honest lookup of the tracked database 10 in
    seg10: it records (version, index 0) but not the OID. -/
def cache_stale : backend_cache_t := (find_histogram_index seg10 cache_init 10).2

theorem histGet_listModify_zero (f : histogram_info_t → histogram_info_t)
    (l : List histogram_info_t) (hl : l ≠ []) :
    histGet (listModify f 0 l) 0 = f (histGet l 0) := by
  cases l with
  | nil => exact absurd rfl hl
  | cons x xs => rfl

theorem histGet_zero_listModifyI (f : histogram_info_t → histogram_info_t)
    (i : Int) (hi : 1 ≤ i) (l : List histogram_info_t) :
    histGet (listModifyI f i l) 0 = histGet l 0 := by
  unfold listModifyI
  rw [if_pos (by omega : (0 : Int) ≤ i)]
  obtain ⟨k, hk⟩ : ∃ k, i.toNat = k + 1 := ⟨i.toNat - 1, by omega⟩
  rw [hk]
  cases l with
  | nil => rfl
  | cons x xs => rfl

theorem reset_loop_body_version (remove : Bool) (now : Int) (i : Nat)
    (s : segment_info_t) : (reset_loop_body remove now i s).version = s.version := by
  cases remove <;> rfl

theorem reset_fold_version (remove : Bool) (now : Int) :
    ∀ (l : List Nat) (s : segment_info_t),
      (l.foldl (fun acc i => reset_loop_body remove now i acc) s).version = s.version := by
  intro l
  induction l with
  | nil => intro s; rfl
  | cons a t ih =>
      intro s
      exact (ih (reset_loop_body remove now a s)).trans
        (reset_loop_body_version remove now a s)

theorem histogram_reset_version (s : segment_info_t) (now : Int) (remove : Bool) :
    (histogram_reset s now remove).version = s.version + 1 := by
  show ((List.range (s.current_databases + 1)).foldl
    (fun acc i => reset_loop_body remove now i acc) s).version + 1 = s.version + 1
  rw [reset_fold_version]

/-- C3: query_bin computes exactly the spec's bucket formula — linear index
    floor(duration_ms / bucket_width), logarithmic index
    floor(log2 (1 + duration_ms / bucket_width)) with duration_ms the
    duration converted to milliseconds — mapping any computed index >=
    bucket_count to bucket_count, and the returned index never exceeds
    bucket_count (proved for every duration, in particular all d >= 0). -/
theorem query_bin_matches_spec (s : segment_info_t) (d : Rat) :
    query_bin s d = bucket_of_spec s.type s.bins s.step (d * 1000) ∧
    query_bin s d ≤ s.bins := by
  constructor
  · unfold query_bin bucket_of_spec
    cases s.type <;> simp
  · unfold query_bin
    dsimp only
    split
    · split
      · exact le_rfl
      · omega
    · split
      · exact le_rfl
      · omega

/-- C4: counterexample — a negative duration is not clamped to bucket 0;
    on the linear segment with bins = 10, step = 100 the duration -1 s is
    binned at floor(-1000/100) = -10, a negative array index, contradicting
    the claim that negative durations map to index 0 (and that record can
    never index out of bounds on any input). -/
theorem query_bin_negative_not_clamped :
    query_bin c4_segment (-1) = -10 ∧ query_bin c4_segment (-1) < 0 := by
  norm_num [query_bin, c4_segment]

/-- C4 (amended): for non-negative durations and a valid configuration
    (bucket width >= 1, bucket count >= 0), query_bin is total with range
    0..bins — so record's bin accesses stay inside the arrays — and a zero
    duration maps to index 0; negative durations are not clamped (see the
    counterexample). -/
theorem query_bin_range (s : segment_info_t) (d : Rat) (hd : 0 ≤ d)
    (hstep : 1 ≤ s.step) (hbins : 0 ≤ s.bins) :
    0 ≤ query_bin s d ∧ query_bin s d ≤ s.bins ∧ query_bin s 0 = 0 := by
  have hstepQ : (0 : Rat) < (s.step : Rat) := by
    have h1 : (1 : Rat) ≤ (s.step : Rat) := by exact_mod_cast hstep
    linarith
  have hx : (0 : Rat) ≤ (d * 1000) / (s.step : Rat) :=
    div_nonneg (by linarith) (le_of_lt hstepQ)
  have hlin : 0 ≤ ⌊(d * 1000) / (s.step : Rat)⌋ := Int.floor_nonneg.mpr hx
  have hlog : 0 ≤ Int.log 2 (1 + (d * 1000) / (s.step : Rat)) := by
    rw [Int.log_of_one_le_right 2 (by linarith : (1 : Rat) ≤ 1 + (d * 1000) / (s.step : Rat))]
    exact Int.natCast_nonneg _
  refine ⟨?_, ?_, ?_⟩
  · unfold query_bin
    dsimp only
    split
    · split
      · exact hbins
      · exact hlin
    · split
      · exact hbins
      · exact hlog
  · unfold query_bin
    dsimp only
    split
    · split
      · exact le_rfl
      · omega
    · split
      · exact le_rfl
      · omega
  · have hz : (if s.type = HISTOGRAM_LINEAR then
        ⌊((0 : Rat) * 1000) / (s.step : Rat)⌋
      else Int.log 2 (1 + ((0 : Rat) * 1000) / (s.step : Rat))) = 0 := by
      split
      · simp
      · simp [Int.log_one_right]
    unfold query_bin
    dsimp only
    rw [hz]
    split
    · omega
    · rfl

/-- C4 witness: the amended range statement instantiated on the concrete
    linear segment at duration 0. -/
theorem query_bin_range_witness :
    0 ≤ query_bin c4_segment 0 ∧ query_bin c4_segment 0 ≤ c4_segment.bins ∧
    query_bin c4_segment 0 = 0 :=
  query_bin_range c4_segment 0 le_rfl (by decide) (by decide)

/-- C1: evaluating histogram_reset_db on the spec's own eviction scenario —
    tracking A = 10, B = 20, C = 30 with distinct histogram contents and
    evicting B — shows the registry bookkeeping behaves as claimed (keys
    {10, 30} remain, current_databases drops to 2, version is bumped exactly
    once, the call reports found) but the histogram data does not: per-key
    data lives at slot db_index + 1 (see add_query and
    histogram_get_data_db), while the eviction path copies slot
    current_databases - 1 (B's own slot 2) over slot db_index (A's slot 1)
    and zeroes slot 2; so after evicting B, survivor A's slot holds B's old
    data, survivor C reads back all zeros through its slot mapping, and C's
    real data is stranded unreachable in slot 3 — refuting "every other
    tracked key's histogram data is intact and unchanged and still readable
    through its slot mapping". -/
theorem reset_db_evict_corrupts_survivors :
    (histogram_reset_db seg3 cache_init 20 7 true).1 = true ∧
    seg3_evicted.current_databases = 2 ∧
    seg3_evicted.version = seg3.version + 1 ∧
    (dbGet seg3_evicted.databases 0).databaseoid = 10 ∧
    (dbGet seg3_evicted.databases 1).databaseoid = 30 ∧
    (histGet seg3.histograms 1).count_bins = [1, 2] ∧
    (histGet seg3_evicted.histograms 1).count_bins = [7, 8] ∧
    (histGet seg3_evicted.histograms 2).count_bins = [0, 0] ∧
    (histGet seg3_evicted.histograms 3).count_bins = [5, 6] ∧
    (histogram_get_data_db seg3 cache_init false 30).1 =
      some ⟨HISTOGRAM_LINEAR, 30, 1, 100, 11, [5, 6], 19, [9, 10]⟩ ∧
    (histogram_get_data_db seg3_evicted cache_init false 30).1 =
      some ⟨HISTOGRAM_LINEAR, 30, 1, 100, 0, [0, 0], 0, [0, 0]⟩ := by decide

/-- C2: counterexample — resetting only the global histogram's data, which
    changes no registry shape, nonetheless increments the Segment version
    (queryhist.c:863 does version++). -/
theorem reset_global_bumps_version :
    (histogram_reset_global seg3 7).version ≠ seg3.version := by decide

/-- C5: evaluating load(save(segment)) under dynamic mode — saving a
    segment whose parameters (logarithmic, bins = 1, step = 50,
    sample_pct = 25) all differ from the configured defaults and reloading
    it into a freshly initialized segment — shows the digest check passes
    and the key list and histogram contents are reproduced, but the file's
    parameters do not become the live parameters: the live segment keeps its
    initialized defaults (linear, bins = 100, step = 100, sample_pct = 100),
    because the assignment block reads segment_info instead of
    segment_info_tmp. -/
theorem load_save_loses_parameters :
    c5_loaded.2.2 = load_result.loaded ∧
    c5_loaded.1.current_databases = s5saved.current_databases ∧
    c5_loaded.1.databases = s5saved.databases ∧
    histGet c5_loaded.1.histograms 0 = histGet s5saved.histograms 0 ∧
    histGet c5_loaded.1.histograms 1 = histGet s5saved.histograms 1 ∧
    s5saved.type = HISTOGRAM_LOG ∧ c5_loaded.1.type = HISTOGRAM_LINEAR ∧
    s5saved.bins = 1 ∧ c5_loaded.1.bins = 100 ∧
    s5saved.step = 50 ∧ c5_loaded.1.step = 100 ∧
    s5saved.sample_pct = 25 ∧ c5_loaded.1.sample_pct = 100 ∧
    c5_loaded.2.1.bins = 100 ∧ c5_loaded.2.1.step = 100 := by decide

/-- C8: evaluating histogram_reset(remove 1) on a segment tracking two
    databases shows the global and both tracked histograms are zeroed with
    last_reset stamped, both key identities are cleared to InvalidOid, and
    version is incremented exactly once — but current_databases is never
    reset, so the registry still reports two (now invalid-keyed) phantom
    entries instead of becoming empty. -/
theorem reset_all_keeps_phantom_entries :
    seg8_reset.version = seg8.version + 1 ∧
    (dbGet seg8_reset.databases 0).databaseoid = InvalidOid ∧
    (dbGet seg8_reset.databases 1).databaseoid = InvalidOid ∧
    histGet seg8_reset.histograms 0 = ⟨7, [0, 0], [0, 0]⟩ ∧
    histGet seg8_reset.histograms 1 = ⟨7, [0, 0], [0, 0]⟩ ∧
    histGet seg8_reset.histograms 2 = ⟨7, [0, 0], [0, 0]⟩ ∧
    seg8_reset.current_databases = 2 ∧ seg8_reset.current_databases ≠ 0 := by decide

/-- C10: evaluating the per-key accessor on an untracked key.  With a fresh
    backend cache the lookup scans, misses, returns none and the SRF emits
    zero rows, as the claim states.  But after an honest lookup of the
    tracked database 10 (which caches (version, slot) without the OID), the
    same accessor invoked for the untracked database 20 hits the stale cache
    and returns database 10's histogram labelled as database 20 — two rows
    instead of zero — contradicting the claim (and find_histogram_index's
    own documented contract of resolving by OID). -/
theorem get_data_db_stale_cache_wrong_result :
    cache_stale = ⟨seg10.version, 0⟩ ∧
    findOidIdx 20 (seg10.databases.take seg10.current_databases) = none ∧
    (histogram_get_data_db seg10 cache_init false 20).1 = none ∧
    query_histogram_rows (histogram_get_data_db seg10 cache_init false 20).1 = 0 ∧
    (histogram_get_data_db seg10 cache_stale false 20).1 =
      some ⟨HISTOGRAM_LINEAR, 20, 1, 100, 3, [1, 2], 7, [3, 4]⟩ ∧
    query_histogram_rows (histogram_get_data_db seg10 cache_stale false 20).1 = 2 := by decide

/-- C7: when the stored digest differs from the digest recomputed over the
    payload, histogram_load_from_file rejects the file with the corruption
    signal and returns the live segment and defaults untouched — rejection
    is an ordinary result value, so startup proceeds with the freshly
    initialized segment it already had. -/
theorem load_rejects_digest_mismatch {D : Type} [DecidableEq D]
    (md5 : segment_info_t → D) (g : guc_defaults_t) (live : segment_info_t)
    (file : dump_file_t D) (hbad : file.hash ≠ md5 file.payload) :
    histogram_load_from_file md5 g live file =
      (live, g, load_result.rejected_hash) := by
  unfold histogram_load_from_file
  rw [if_neg hbad]

/-- C7 witness: a concrete digest function and a file whose stored digest
    (1) differs from the recomputed digest (0); the load leaves the fresh
    segment and the defaults unchanged and reports the corruption signal. -/
theorem load_rejects_digest_mismatch_witness :
    histogram_load_from_file (fun _ => (0 : Nat)) g5 f5live ⟨1, s5saved⟩ =
      (f5live, g5, load_result.rejected_hash) :=
  load_rejects_digest_mismatch (fun _ => (0 : Nat)) g5 f5live ⟨1, s5saved⟩ (by decide)

/-- C2 (amended): the version counter is monotonically non-decreasing and
    data-path operations do not bump it — recording a duration for an
    already-tracked key (resolved by an up-to-date lookup) leaves version
    unchanged, and remove(key, evict=false) leaves version unchanged on
    every path — but, correcting the claim, resetting the global histogram's
    data alone does increment version, exactly as the full reset does. -/
theorem version_shape_discipline (s : segment_info_t) (c : backend_cache_t)
    (oid : Oid) (d : Rat) (now : Int) (remove : Bool)
    (hfresh : c.lookup_version ≠ s.version)
    (htracked : (findOidIdx oid (s.databases.take s.current_databases)).isSome) :
    (add_query s c oid d).1.version = s.version ∧
    (histogram_reset_db s c oid now false).2.1.version = s.version ∧
    (histogram_reset_global s now).version = s.version + 1 ∧
    (histogram_reset s now remove).version = s.version + 1 ∧
    s.version ≤ (histogram_reset_db s c oid now remove).2.1.version := by
  obtain ⟨j, hj⟩ := Option.isSome_iff_exists.mp htracked
  have hjne : ((j : Int)) ≠ DB_NOT_FOUND := by
    unfold DB_NOT_FOUND
    omega
  refine ⟨?_, ?_, rfl, histogram_reset_version s now remove, ?_⟩
  · unfold add_query find_histogram_index
    dsimp only
    rw [if_neg hfresh, hj]
    dsimp only
    rw [if_neg (fun h => hjne h.1), if_pos hjne]
  · unfold histogram_reset_db find_histogram_index
    dsimp only
    rw [if_neg hfresh, hj]
    dsimp only
    rw [if_pos hjne]
    simp
  · unfold histogram_reset_db find_histogram_index
    dsimp only
    rw [if_neg hfresh, hj]
    dsimp only
    rw [if_pos hjne]
    cases remove with
    | false => simp
    | true =>
        by_cases hlast : ((j : Int)) ≠ ((s.current_databases : Int) - 1) <;>
          simp [hlast]

/-- C2 witness: the amended statement instantiated on the concrete segment
    tracking database 10, with a fresh backend cache. -/
theorem version_shape_discipline_witness :
    (add_query seg10 cache_init 10 0).1.version = seg10.version ∧
    (histogram_reset_db seg10 cache_init 10 7 false).2.1.version = seg10.version ∧
    (histogram_reset_global seg10 7).version = seg10.version + 1 ∧
    (histogram_reset seg10 7 false).version = seg10.version + 1 ∧
    seg10.version ≤ (histogram_reset_db seg10 cache_init 10 7 false).2.1.version :=
  version_shape_discipline seg10 cache_init 10 0 7 false (by decide) (by decide)

/-- C6: when a duration arrives for a database that is not tracked and the
    registry is full (current_databases = max_databases), add_query creates
    no new entry and raises no error: the key list, current_databases and
    version are all left unchanged, while the global histogram (slot 0)
    still receives the recorded duration.  The backend cache may be in any
    well-formed state (empty or caching a valid slot for the current
    version). -/
theorem add_query_capacity_graceful (s : segment_info_t) (c : backend_cache_t)
    (oid : Oid) (d : Rat)
    (hwf : segment_wf s)
    (hfull : s.current_databases = s.max_databases)
    (hnot : findOidIdx oid (s.databases.take s.current_databases) = none)
    (hcache : c.lookup_db_index = DB_NOT_FOUND ∨
      (0 ≤ c.lookup_db_index ∧ c.lookup_db_index.toNat < s.current_databases)) :
    (add_query s c oid d).1.databases = s.databases ∧
    (add_query s c oid d).1.current_databases = s.current_databases ∧
    (add_query s c oid d).1.version = s.version ∧
    histGet (add_query s c oid d).1.histograms 0 =
      hist_add_query (histGet s.histograms 0) (query_bin s d) d := by
  obtain ⟨hdb_len, hhist_len, hcur, hidx⟩ := hwf
  have hne_nil : s.histograms ≠ [] := by
    have hpos : 0 < s.histograms.length := by omega
    exact List.length_pos.mp hpos
  unfold add_query find_histogram_index
  dsimp only
  by_cases hv : c.lookup_version = s.version
  · rw [if_pos hv]
    dsimp only
    rcases hcache with hmiss | ⟨h0, hlt⟩
    · rw [hmiss]
      rw [if_neg (fun h => absurd h.2 (by omega)),
          if_neg (not_not_intro rfl)]
      refine ⟨rfl, rfl, rfl, ?_⟩
      rw [histGet_listModify_zero _ _ hne_nil]
    · have hne : c.lookup_db_index ≠ DB_NOT_FOUND := by
        unfold DB_NOT_FOUND
        omega
      rw [if_neg (fun h => hne h.1), if_pos hne]
      dsimp only
      refine ⟨rfl, rfl, rfl, ?_⟩
      have hslot : (dbGet s.databases c.lookup_db_index).histogram_idx =
          c.lookup_db_index + 1 := by
        have h2 := hidx c.lookup_db_index.toNat hlt
        rwa [Int.toNat_of_nonneg h0] at h2
      rw [hslot, histGet_zero_listModifyI _ _ (by omega) _,
          histGet_listModify_zero _ _ hne_nil]
  · rw [if_neg hv]
    dsimp only
    rw [hnot]
    dsimp only
    rw [if_neg (fun h => absurd h.2 (by omega)),
        if_neg (not_not_intro rfl)]
    refine ⟨rfl, rfl, rfl, ?_⟩
    rw [histGet_listModify_zero _ _ hne_nil]

/-- C6 witness: the statement instantiated on a concrete full segment
    (capacity 1, tracking database 10) for the untracked database 20 with a
    fresh backend cache. -/
theorem add_query_capacity_graceful_witness :
    (add_query seg6 cache_init 20 0).1.databases = seg6.databases ∧
    (add_query seg6 cache_init 20 0).1.current_databases = seg6.current_databases ∧
    (add_query seg6 cache_init 20 0).1.version = seg6.version ∧
    histGet (add_query seg6 cache_init 20 0).1.histograms 0 =
      hist_add_query (histGet seg6.histograms 0) (query_bin seg6 0) 0 :=
  add_query_capacity_graceful seg6 cache_init 20 0
    (by unfold segment_wf; decide) (by decide) (by decide) (by decide)

/-- C9: projection scaling.  When scale is requested and sample_pct < 100,
    every per-bucket count is multiplied by 100/sample_pct (stored back into
    an int64, truncating — exact whenever the product is integral, as in the
    claim's 25-percent example) and every per-bucket time is multiplied by
    the same coefficient, and the totals are computed over the scaled copy;
    with scale = false the raw recorded values are returned unchanged, and
    with sample_pct = 100 the scaled and unscaled snapshots coincide. -/
theorem get_data_global_scaling (s : segment_info_t) (hbins : 0 < s.bins) :
    (s.sample_pct < 100 →
      (histogram_get_data_global s true).count_data =
        (histogram_get_data_global s false).count_data.map
          (fun cnt => c_trunc ((cnt : Rat) * (100 / (s.sample_pct : Rat)))) ∧
      (histogram_get_data_global s true).time_data =
        (histogram_get_data_global s false).time_data.map
          (fun t => t * (100 / (s.sample_pct : Rat)))) ∧
    (100 ≤ s.sample_pct →
      histogram_get_data_global s true = histogram_get_data_global s false) ∧
    (histogram_get_data_global s false).count_data =
      (histGet s.histograms 0).count_bins.take (s.bins + 1).toNat ∧
    (histogram_get_data_global s false).time_data =
      (histGet s.histograms 0).time_bins.take (s.bins + 1).toNat ∧
    (histogram_get_data_global s true).total_count =
      ((histogram_get_data_global s true).count_data).foldl (· + ·) 0 ∧
    (histogram_get_data_global s true).total_time =
      ((histogram_get_data_global s true).time_data).foldl (· + ·) 0 := by
  unfold histogram_get_data_global scale_counts scale_times
  simp only [if_pos hbins]
  refine ⟨fun hpct => ?_, fun hge => ?_, ?_, ?_, ?_, ?_⟩
  · simp [hpct]
  · have hn : ¬ s.sample_pct < 100 := not_lt.mpr hge
    simp [hn]
  · simp
  · simp
  · simp
  · simp

/-- C9 witness: the claim's own example — sample_pct = 25, count 10 in
    bucket 0 — reports bin_count 40 under scale = true and the raw 10 under
    scale = false, via the scaling statement instantiated on the concrete
    segment. -/
theorem get_data_global_scaling_witness :
    (histogram_get_data_global seg9 true).count_data = [40, 0] ∧
    (histogram_get_data_global seg9 false).count_data = [10, 0] ∧
    (histogram_get_data_global seg9 true).count_data =
      (histogram_get_data_global seg9 false).count_data.map
        (fun cnt => c_trunc ((cnt : Rat) * (100 / (seg9.sample_pct : Rat)))) :=
  ⟨by decide, by decide,
    ((get_data_global_scaling seg9 (by decide)).1 (by decide)).1⟩
